import Mathlib

/-!
Shallow embedding of the proyecto-grupal-2 backend service.

The repository ships a PostgreSQL schema (database/init.sql, embedded at the
top of src/unnamed/part_001), and a Node/Express backend.  The claims target
the most complete backend variant (src/unnamed/part_001, lines 463 to 978),
which the spec designates as the intended behavior, plus the v2 startup
retry helper checkDatabaseConnection (lines 89 to 105) and startServer
(lines 427 to 459).

Machine integers are modelled as Nat; timestamps are opaque Nat or String
tokens supplied by the caller; the store is a pure value threaded through
each handler; a failing store call returns an Except error carrying the
Postgres error code and message.
-/

namespace Api

/-- Row of the usuarios table: id SERIAL PRIMARY KEY, nombre VARCHAR NOT NULL,
email VARCHAR UNIQUE NOT NULL, creado_en TIMESTAMP DEFAULT CURRENT_TIMESTAMP
(init.sql, src/unnamed/part_001 lines 2 to 7).  Note the table has no
actualizado_en column. -/
structure User where
  id : Nat
  nombre : String
  email : String
  creado_en : Nat
deriving Repr, DecidableEq

/-- Row of the productos table: id SERIAL, nombre, precio DECIMAL(10,2)
modelled in cents, stock INTEGER DEFAULT 0, creado_en (init.sql lines 16 to 22). -/
structure Product where
  id : Nat
  nombre : String
  precioCents : Nat
  stock : Nat
  creado_en : Nat
deriving Repr, DecidableEq

/-- Contents of the record store: both tables plus the SERIAL counter for
usuarios.id. -/
structure DB where
  users : List User
  nextUserId : Nat
  products : List Product
deriving Repr, DecidableEq

/-- Column names of the usuarios table as created by init.sql. -/
def usuariosColumns : List String := ["id", "nombre", "email", "creado_en"]

/-- A store-layer error: Postgres error code (for example 23505 for a unique
violation, 42703 for an undefined column) and the human-readable message. -/
structure DBErr where
  code : String
  message : String
deriving Repr, DecidableEq

/-- Connectivity of the pool: when ok is false every query fails with a
connection error whose message is failMsg (such errors carry no Postgres
error code). -/
structure Conn where
  ok : Bool
  failMsg : String
deriving Repr, DecidableEq

/-- Run a statement through the pool: a down connection turns every
statement into a connection error. -/
def runQuery (conn : Conn) (r : Except DBErr α) : Except DBErr α :=
  if conn.ok then r else Except.error ⟨"ECONNREFUSED", conn.failMsg⟩

/-- JSON-ish value appearing in a response body. -/
inductive JVal where
  | b : Bool → JVal
  | n : Nat → JVal
  | s : String → JVal
  | u : User → JVal
  | ul : List User → JVal
  | pl : List Product → JVal
  | sl : List String → JVal
  | obj : List (String × String) → JVal
  | items : List (Nat × String × Nat) → JVal
deriving Repr, DecidableEq

/-- An HTTP response: status code and JSON body as an association list. -/
structure Response where
  status : Nat
  body : List (String × JVal)
deriving Repr, DecidableEq

/-- Result of running a handler that may touch the store: the response, the
store state afterwards, and how many statements the handler issued. -/
structure HOut where
  resp : Response
  db : DB
  queries : Nat
deriving Repr, DecidableEq

/-- JS truthiness of an optional request-body string field: absent, null and
the empty string are falsy. -/
def truthy : Option String → Bool
  | none => false
  | some s => decide (s ≠ "")

/-- Character class matched by the \s of the email regex. -/
def jsWhitespace (c : Char) : Bool :=
  c = ' ' || c = '\t' || c = '\n' || c = '\r' || c = '\x0b' || c = '\x0c'

/-- Test of the regex /^[^\s@]+@[^\s@]+\.[^\s@]+$/ used by POST /users
(src/unnamed/part_001 line 687): exactly one at-sign, a nonempty local part,
no whitespace anywhere, and a dot in the domain with at least one character
on each side of it. -/
def emailRegexTest (s : String) : Bool :=
  let cs := s.data
  let lp := cs.takeWhile (fun c => c != '@')
  match cs.dropWhile (fun c => c != '@') with
  | '@' :: dom =>
    decide (lp ≠ []) && !(dom.contains '@') &&
    (cs.all fun c => !(jsWhitespace c)) &&
    ((dom.drop 1).dropLast.contains '.')
  | _ => false

/-- NODE_ENV defaulting: process.env.NODE_ENV or development; the empty
string stands for an unset variable. -/
def envOrDev (env : String) : String := if env = "" then "development" else env

/-- Insertion step for sorting rows in descending key order. -/
def insertByKeyDesc (key : α → Nat) (x : α) : List α → List α
  | [] => [x]
  | y :: ys => if key y ≤ key x then x :: y :: ys else y :: insertByKeyDesc key x ys

/-- ORDER BY key DESC, as an insertion sort. -/
def sortByKeyDesc (key : α → Nat) : List α → List α
  | [] => []
  | x :: xs => insertByKeyDesc key x (sortByKeyDesc key xs)

/-- SELECT * FROM usuarios WHERE id = $1. -/
def selectUsuarioById (db : DB) (id : Nat) : List User :=
  db.users.filter (fun u => u.id == id)

/-- INSERT INTO usuarios (nombre, email) VALUES ($1, $2) RETURNING *:
fails with 23505 when the UNIQUE constraint on email is violated, otherwise
appends a row with the next SERIAL id and the insert-time timestamp. -/
def insertUsuario (db : DB) (nombre email : String) (now : Nat) :
    Except DBErr (User × DB) :=
  if db.users.any (fun u => u.email == email) then
    Except.error ⟨"23505", "llave duplicada viola restriccion de unicidad usuarios_email_key"⟩
  else
    let u : User := ⟨db.nextUserId, nombre, email, now⟩
    Except.ok (u, { db with users := db.users ++ [u], nextUserId := db.nextUserId + 1 })

/-- DELETE FROM usuarios WHERE id = $1 RETURNING *: the returned rows and
the store afterwards. -/
def deleteUsuario (db : DB) (id : Nat) : List User × DB :=
  (db.users.filter (fun u => u.id == id),
   { db with users := db.users.filter (fun u => u.id != id) })

/-- Column list of the SET clause built by PUT /users/:id (src/unnamed/part_001
lines 744 to 767): nombre when truthy, email when truthy, and always
actualizado_en, which is hard-coded in the query template. -/
def putSetColumns (nombre email : Option String) : List String :=
  (if truthy nombre then ["nombre"] else []) ++
  (if truthy email then ["email"] else []) ++ ["actualizado_en"]

/-- Execution of the dynamic UPDATE statement of PUT /users/:id against the
init.sql schema.  Postgres rejects a statement whose SET clause names a
column the table does not have (error 42703) before touching any row;
otherwise a new email equal to the email of another row violates the UNIQUE
constraint (23505); otherwise the matched rows are updated and returned. -/
def execUpdateUsuarios (db : DB) (nombre email : Option String) (id : Nat) :
    Except DBErr (List User × DB) :=
  let cols := putSetColumns nombre email
  match cols.find? (fun c => !(usuariosColumns.contains c)) with
  | some c =>
    Except.error ⟨"42703", "no existe la columna " ++ c ++ " en la relacion usuarios"⟩
  | none =>
    if db.users.any (fun u =>
        u.id != id && cols.contains "email" && email.getD "" == u.email) then
      Except.error ⟨"23505", "llave duplicada viola restriccion de unicidad usuarios_email_key"⟩
    else
      let upd := fun (u : User) =>
        if u.id == id then
          { u with
            nombre := if cols.contains "nombre" then nombre.getD u.nombre else u.nombre,
            email := if cols.contains "email" then email.getD u.email else u.email }
        else u
      let users2 := db.users.map upd
      Except.ok (users2.filter (fun u => u.id == id), { db with users := users2 })

/-- Store seeded by init.sql: two users, three products, SERIAL counter at 3.
Timestamps are arbitrary tokens. -/
def seedDB : DB :=
  { users := [⟨1, "Juan Perez", "juan@example.com", 10⟩,
              ⟨2, "Maria Garcia", "maria@example.com", 11⟩],
    nextUserId := 3,
    products := [⟨1, "Laptop", 120000, 10, 12⟩,
                 ⟨2, "Mouse", 2550, 50, 13⟩,
                 ⟨3, "Teclado", 4500, 30, 14⟩] }

/-- Handler of GET /users (src/unnamed/part_001 lines 633 to 647): one SELECT
ordered by creado_en DESC; on failure a 500 carrying error.message with no
environment check. -/
def getUsers (conn : Conn) (db : DB) : HOut :=
  match runQuery conn (Except.ok (sortByKeyDesc User.creado_en db.users)) with
  | Except.ok rows =>
    ⟨⟨200, [("success", JVal.b true), ("count", JVal.n rows.length),
            ("users", JVal.ul rows)]⟩, db, 1⟩
  | Except.error e =>
    ⟨⟨500, [("success", JVal.b false), ("error", JVal.s e.message)]⟩, db, 1⟩

/-- Handler of GET /users/:id (lines 650 to 672): one SELECT by id; empty
result set gives 404, otherwise 200 with rows[0]. -/
def getUserById (conn : Conn) (db : DB) (id : Nat) : HOut :=
  match runQuery conn (Except.ok (selectUsuarioById db id)) with
  | Except.ok [] =>
    ⟨⟨404, [("success", JVal.b false),
            ("error", JVal.s ("Usuario con ID " ++ toString id ++ " no encontrado"))]⟩,
     db, 1⟩
  | Except.ok (u :: _) =>
    ⟨⟨200, [("success", JVal.b true), ("user", JVal.u u)]⟩, db, 1⟩
  | Except.error e =>
    ⟨⟨500, [("success", JVal.b false), ("error", JVal.s e.message)]⟩, db, 1⟩

/-- Handler of POST /users (lines 675 to 719): requires truthy nombre and
email, then the email regex, then one INSERT; a 23505 from the store maps to
409, any other store error to 500 with error.message. -/
def postUser (conn : Conn) (db : DB) (nombre email : Option String) (now : Nat) : HOut :=
  if !(truthy nombre) || !(truthy email) then
    ⟨⟨400, [("success", JVal.b false),
            ("error", JVal.s "Nombre y email son campos requeridos")]⟩, db, 0⟩
  else if !(emailRegexTest (email.getD "")) then
    ⟨⟨400, [("success", JVal.b false),
            ("error", JVal.s "Formato de email invalido")]⟩, db, 0⟩
  else
    match runQuery conn (insertUsuario db (nombre.getD "") (email.getD "") now) with
    | Except.ok (u, db2) =>
      ⟨⟨201, [("success", JVal.b true),
              ("message", JVal.s "Usuario creado exitosamente"),
              ("user", JVal.u u)]⟩, db2, 1⟩
    | Except.error e =>
      if e.code == "23505" then
        ⟨⟨409, [("success", JVal.b false),
                ("error", JVal.s ("El email \x27" ++ email.getD "" ++ "\x27 ya esta registrado"))]⟩,
         db, 1⟩
      else
        ⟨⟨500, [("success", JVal.b false), ("error", JVal.s e.message)]⟩, db, 1⟩

/-- Handler of PUT /users/:id (lines 722 to 789): 400 when neither field is
truthy; then one SELECT existence check (miss gives 404); then the dynamic
UPDATE whose SET clause always names actualizado_en; a 23505 maps to 409,
any other store error to 500 with error.message. -/
def putUser (conn : Conn) (db : DB) (id : Nat) (nombre email : Option String) : HOut :=
  if !(truthy nombre) && !(truthy email) then
    ⟨⟨400, [("success", JVal.b false),
            ("error", JVal.s "Se requiere al menos un campo para actualizar (nombre o email)")]⟩,
     db, 0⟩
  else
    match runQuery conn (Except.ok (selectUsuarioById db id)) with
    | Except.error e =>
      if e.code == "23505" then
        ⟨⟨409, [("success", JVal.b false),
                ("error", JVal.s ("El email \x27" ++ email.getD "" ++ "\x27 ya esta registrado por otro usuario"))]⟩,
         db, 1⟩
      else
        ⟨⟨500, [("success", JVal.b false), ("error", JVal.s e.message)]⟩, db, 1⟩
    | Except.ok [] =>
      ⟨⟨404, [("success", JVal.b false),
              ("error", JVal.s ("Usuario con ID " ++ toString id ++ " no encontrado"))]⟩,
       db, 1⟩
    | Except.ok (_ :: _) =>
      match runQuery conn (execUpdateUsuarios db nombre email id) with
      | Except.ok (rows, db2) =>
        ⟨⟨200, [("success", JVal.b true),
                ("message", JVal.s "Usuario actualizado exitosamente")] ++
               (match rows with
                | [] => []
                | u :: _ => [("user", JVal.u u)])⟩, db2, 2⟩
      | Except.error e =>
        if e.code == "23505" then
          ⟨⟨409, [("success", JVal.b false),
                  ("error", JVal.s ("El email \x27" ++ email.getD "" ++ "\x27 ya esta registrado por otro usuario"))]⟩,
           db, 2⟩
        else
          ⟨⟨500, [("success", JVal.b false), ("error", JVal.s e.message)]⟩, db, 2⟩

/-- Handler of DELETE /users/:id (lines 792 to 816): one DELETE RETURNING *;
empty result gives 404, otherwise 200 with the deleted row. -/
def deleteUser (conn : Conn) (db : DB) (id : Nat) : HOut :=
  match runQuery conn (Except.ok (deleteUsuario db id)) with
  | Except.ok ([], db2) =>
    ⟨⟨404, [("success", JVal.b false),
            ("error", JVal.s ("Usuario con ID " ++ toString id ++ " no encontrado"))]⟩,
     db2, 1⟩
  | Except.ok (u :: _, db2) =>
    ⟨⟨200, [("success", JVal.b true),
            ("message", JVal.s "Usuario eliminado exitosamente"),
            ("deleted_user", JVal.u u)]⟩, db2, 1⟩
  | Except.error e =>
    ⟨⟨500, [("success", JVal.b false), ("error", JVal.s e.message)]⟩, db, 1⟩

/-- Handler of GET /products (lines 821 to 835): one SELECT ordered by
creado_en DESC. -/
def getProducts (conn : Conn) (db : DB) : HOut :=
  match runQuery conn (Except.ok (sortByKeyDesc Product.creado_en db.products)) with
  | Except.ok rows =>
    ⟨⟨200, [("success", JVal.b true), ("count", JVal.n rows.length),
            ("products", JVal.pl rows)]⟩, db, 1⟩
  | Except.error e =>
    ⟨⟨500, [("success", JVal.b false), ("error", JVal.s e.message)]⟩, db, 1⟩

/-- Sum of the stock column, as computed by SUM(stock) with the parseInt
fallback to 0. -/
def sumStock (ps : List Product) : Nat := ps.foldl (fun a p => a + p.stock) 0

/-- Handler of GET /stats (lines 840 to 883): three statements through
Promise.all (user count, product count plus stock sum, version); the nested
stats object is flattened into a string map. -/
def getStats (conn : Conn) (db : DB) (ver uptimeStr startTime env : String)
    (memMB : Nat) : HOut :=
  match runQuery conn (Except.ok ()) with
  | Except.ok _ =>
    ⟨⟨200, [("success", JVal.b true),
            ("stats", JVal.obj
              [("users_total", toString db.users.length),
               ("products_total", toString db.products.length),
               ("products_total_stock", toString (sumStock db.products)),
               ("database_version", ver),
               ("database_connection", "active"),
               ("api_uptime", uptimeStr),
               ("api_start_time", startTime),
               ("api_environment", envOrDev env),
               ("api_memory_usage", toString memMB ++ "MB")])]⟩, db, 3⟩
  | Except.error e =>
    ⟨⟨500, [("success", JVal.b false), ("error", JVal.s e.message)]⟩, db, 3⟩

/-- Handler of GET /health (lines 501 to 527): one SELECT 1; neither branch
of the body contains a success field. -/
def getHealth (conn : Conn) (db : DB) (now env : String) (uptime : Nat) : HOut :=
  match runQuery conn (Except.ok ()) with
  | Except.ok _ =>
    ⟨⟨200, [("service", JVal.s "backend-api"), ("status", JVal.s "healthy"),
            ("timestamp", JVal.s now),
            ("database", JVal.obj [("status", "connected"), ("server_time", now)]),
            ("environment", JVal.s (envOrDev env)),
            ("uptime", JVal.n uptime)]⟩, db, 1⟩
  | Except.error e =>
    ⟨⟨500, [("service", JVal.s "backend-api"), ("status", JVal.s "unhealthy"),
            ("timestamp", JVal.s now),
            ("database", JVal.obj [("status", "disconnected"), ("error", e.message)]),
            ("environment", JVal.s (envOrDev env))]⟩, db, 1⟩

/-- Handler of GET /db-test (lines 530 to 545): one SELECT NOW(), version(). -/
def getDbTest (conn : Conn) (db : DB) (now ver : String) : HOut :=
  match runQuery conn (Except.ok (now, ver)) with
  | Except.ok tv =>
    ⟨⟨200, [("success", JVal.b true),
            ("data", JVal.obj [("current_time", tv.1), ("postgres_version", tv.2)]),
            ("message", JVal.s "Conexion a PostgreSQL exitosa")]⟩, db, 1⟩
  | Except.error e =>
    ⟨⟨500, [("success", JVal.b false), ("error", JVal.s e.message),
            ("message", JVal.s "Error al conectar con PostgreSQL")]⟩, db, 1⟩

/-- Handler of GET /system-info (lines 548 to 593): static body, no store
access; nested objects flattened to string maps. -/
def getSystemInfo (startTime uptimeStr nodeVersion env dbHost : String) : Response :=
  ⟨200, [("success", JVal.b true),
         ("service", JVal.s "Backend API - Proyecto Grupal 2"),
         ("version", JVal.s "3.0.0"),
         ("description", JVal.s "API REST con Node.js, Express y PostgreSQL para proyecto Docker"),
         ("endpoints", JVal.sl ["/health", "/db-test", "/users", "/users/:id", "/products",
                                "/stats", "/system-info", "/info", "/data", "/echo"]),
         ("database", JVal.obj [("type", "PostgreSQL"), ("connected", "true"), ("host", dbHost)]),
         ("server", JVal.obj [("start_time", startTime), ("uptime", uptimeStr),
                              ("node_version", nodeVersion), ("environment", envOrDev env)]),
         ("project", JVal.obj [("name", "Proyecto Grupal 2 - Docker"), ("members", "3")])]⟩

/-- Handler of GET /info (lines 596 to 604): static body without a success
field. -/
def getInfo : Response :=
  ⟨200, [("service", JVal.s "Backend API"),
         ("version", JVal.s "3.0.0"),
         ("endpoints", JVal.sl ["/health", "/db-test", "/users", "/products", "/stats",
                                "/system-info", "/info", "/data", "/echo"]),
         ("database", JVal.s "PostgreSQL"),
         ("documentation", JVal.s "Ver README.md o endpoint /system-info")]⟩

/-- Handler of GET /data (lines 607 to 618): fixed sample payload without a
success field. -/
def getData (now : String) : Response :=
  ⟨200, [("message", JVal.s "Datos desde el backend"),
         ("items", JVal.items [(1, "Item A", 100), (2, "Item B", 200), (3, "Item C", 300)]),
         ("total", JVal.n 3),
         ("generatedAt", JVal.s now)]⟩

/-- Handler of POST /echo (lines 621 to 628): echoes the request body under
the received key; no success field of its own. -/
def postEcho (reqBody : JVal) (now : String) : Response :=
  ⟨200, [("received", reqBody), ("echoedAt", JVal.s now),
         ("message", JVal.s "Datos recibidos correctamente")]⟩

/-- Fallback for unmatched routes (lines 899 to 916). -/
def notFoundHandler : Response :=
  ⟨404, [("success", JVal.b false), ("error", JVal.s "Ruta no encontrada"),
         ("available_routes", JVal.sl ["/health", "/db-test", "/system-info", "/info",
                                       "/data", "/echo", "/users", "/users/:id",
                                       "/products", "/stats"])]⟩

/-- Terminal error handler (lines 888 to 896): status err.status or 500,
message err.message or a default, and the stack only when NODE_ENV is
development (an undefined value makes res.json drop the key). -/
def errorHandler (env : String) (errStatus : Option Nat) (errMsg errStack : String) :
    Response :=
  ⟨(match errStatus with | some s => if s = 0 then 500 else s | none => 500),
   [("success", JVal.b false),
    ("error", JVal.s (if errMsg = "" then "Error interno del servidor" else errMsg))] ++
   (if env = "development" then [("stack", JVal.s errStack)] else [])⟩

/-- Retry loop of checkDatabaseConnection (src/unnamed/part_001 lines 89 to
105): avail i tells whether connection attempt i would succeed; the result is
(connected, attempts made, total milliseconds waited).  A delay is inserted
after every failed attempt except the last. -/
def checkLoop (avail : Nat → Bool) (delay : Nat) : Nat → Nat → Bool × Nat × Nat
  | _, 0 => (false, 0, 0)
  | i, r + 1 =>
    if avail i then (true, 1, 0)
    else if r = 0 then (false, 1, 0)
    else
      let out := checkLoop avail delay (i + 1) r
      (out.1, out.2.1 + 1, out.2.2 + delay)

/-- checkDatabaseConnection with its source defaults retries = 5 and
delay = 2000. -/
def checkDatabaseConnection (avail : Nat → Bool) (retries delay : Nat) :
    Bool × Nat × Nat :=
  checkLoop avail delay 0 retries

/-- Observable outcome of startServer. -/
structure ServerState where
  listening : Bool
  dbConnected : Bool
deriving Repr, DecidableEq

/-- startServer (lines 427 to 459): runs the bounded connection check and
then listens regardless of its outcome; a failed check only logs a warning. -/
def startServer (avail : Nat → Bool) : ServerState :=
  { listening := true, dbConnected := (checkDatabaseConnection avail 5 2000).1 }

/-- A response body has a success indicator field when some key equals
success. -/
def hasSuccessField (r : Response) : Bool :=
  r.body.any (fun kv => kv.1 == "success")

lemma truthy_eq_true {s : String} (h : s ≠ "") : truthy (some s) = true := by
  simp [truthy, h]

lemma emailRegexTest_ne_empty {s : String} (h : emailRegexTest s = true) : s ≠ "" := by
  intro he
  subst he
  exact absurd h (by decide)

lemma any_email_eq_false {l : List User} {e : String} (h : ∀ u ∈ l, u.email ≠ e) :
    (l.any fun u => u.email == e) = false := by
  cases hx : l.any (fun u => u.email == e) with
  | false => rfl
  | true =>
    rw [List.any_eq_true] at hx
    obtain ⟨u, hu, hb⟩ := hx
    exact absurd (by simpa using hb) (h u hu)

lemma execUpdate_empty_nombre (db : DB) (e : Option String) (id : Nat) :
    execUpdateUsuarios db (some "") e id = execUpdateUsuarios db none e id := by
  have hc : putSetColumns (some "") e = putSetColumns none e := by
    simp [putSetColumns, truthy]
  have hn : "nombre" ∉ putSetColumns none e := by
    cases he : truthy e <;> simp [putSetColumns, he, truthy]
  unfold execUpdateUsuarios
  rw [hc]
  simp [hn]

/-- Claim C1 evaluation: on the store exactly as created by init.sql, a PUT
/users/:id for the seeded user 1 whose body carries only a valid new email
does not succeed: the dynamic UPDATE names the column actualizado_en, which
the usuarios table does not have, so the store rejects the statement and the
handler answers 500; the record is left unchanged. -/
theorem put_email_only_on_seed_store_returns_500 :
    (putUser ⟨true, ""⟩ seedDB 1 none (some "nuevo@example.com")).resp.status = 500 ∧
    (putUser ⟨true, ""⟩ seedDB 1 none (some "nuevo@example.com")).db = seedDB ∧
    "actualizado_en" ∈ putSetColumns none (some "nuevo@example.com") ∧
    "actualizado_en" ∉ usuariosColumns := by
  refine ⟨by decide, by decide, by decide, by decide⟩

/-- Claim C3 counterexample: the GET /users catch block attaches the
message of the store error with no environment check, so with NODE_ENV set
to production a failing store still produces a 500 whose body carries the
internal diagnostic text verbatim. -/
theorem production_error_response_contains_store_message :
    (getUsers ⟨false, "connect ECONNREFUSED 172.18.0.2:5432"⟩ seedDB).resp.status = 500 ∧
    ("error", JVal.s "connect ECONNREFUSED 172.18.0.2:5432") ∈
      (getUsers ⟨false, "connect ECONNREFUSED 172.18.0.2:5432"⟩ seedDB).resp.body := by
  exact ⟨by decide, by decide⟩

/-- Claim C3 as amended: the store error message is attached to failure
responses unconditionally, in every mode, by every handler that reaches the
store (for the user CRUD handlers, products, stats and db-test as the error
field of the body; for health inside the nested database object); only the
stack trace emitted by the terminal error handler is restricted to
development mode.  The create and update conjuncts assume a body that passes
validation, since otherwise no store operation is attempted. -/
theorem store_message_unconditional_stack_gated_on_dev (db : DB) (id : Nat)
    (msg env errMsg errStack : String) (st : Option Nat)
    (nombre email : Option String) (e : String) (now : Nat)
    (ver us stt envv nw vr : String) (m up : Nat) :
    ((getUsers ⟨false, msg⟩ db).resp.status = 500 ∧
      ("error", JVal.s msg) ∈ (getUsers ⟨false, msg⟩ db).resp.body) ∧
    ((getUserById ⟨false, msg⟩ db id).resp.status = 500 ∧
      ("error", JVal.s msg) ∈ (getUserById ⟨false, msg⟩ db id).resp.body) ∧
    ((deleteUser ⟨false, msg⟩ db id).resp.status = 500 ∧
      ("error", JVal.s msg) ∈ (deleteUser ⟨false, msg⟩ db id).resp.body) ∧
    ((getProducts ⟨false, msg⟩ db).resp.status = 500 ∧
      ("error", JVal.s msg) ∈ (getProducts ⟨false, msg⟩ db).resp.body) ∧
    ((getStats ⟨false, msg⟩ db ver us stt envv m).resp.status = 500 ∧
      ("error", JVal.s msg) ∈ (getStats ⟨false, msg⟩ db ver us stt envv m).resp.body) ∧
    ((getDbTest ⟨false, msg⟩ db nw vr).resp.status = 500 ∧
      ("error", JVal.s msg) ∈ (getDbTest ⟨false, msg⟩ db nw vr).resp.body) ∧
    ((getHealth ⟨false, msg⟩ db nw envv up).resp.status = 500 ∧
      ("database", JVal.obj [("status", "disconnected"), ("error", msg)]) ∈
        (getHealth ⟨false, msg⟩ db nw envv up).resp.body) ∧
    (truthy nombre = true → emailRegexTest e = true →
      (postUser ⟨false, msg⟩ db nombre (some e) now).resp.status = 500 ∧
      ("error", JVal.s msg) ∈ (postUser ⟨false, msg⟩ db nombre (some e) now).resp.body) ∧
    ((truthy nombre || truthy email) = true →
      (putUser ⟨false, msg⟩ db id nombre email).resp.status = 500 ∧
      ("error", JVal.s msg) ∈ (putUser ⟨false, msg⟩ db id nombre email).resp.body) ∧
    ((("stack", JVal.s errStack) ∈ (errorHandler env st errMsg errStack).body) ↔
      env = "development") := by
  refine ⟨?_, ?_, ?_, ?_, ?_, ?_, ?_, ?_, ?_, ?_⟩
  · exact ⟨by simp [getUsers, runQuery], by simp [getUsers, runQuery]⟩
  · exact ⟨by simp [getUserById, runQuery], by simp [getUserById, runQuery]⟩
  · exact ⟨by simp [deleteUser, runQuery], by simp [deleteUser, runQuery]⟩
  · exact ⟨by simp [getProducts, runQuery], by simp [getProducts, runQuery]⟩
  · exact ⟨by simp [getStats, runQuery], by simp [getStats, runQuery]⟩
  · exact ⟨by simp [getDbTest, runQuery], by simp [getDbTest, runQuery]⟩
  · exact ⟨by simp [getHealth, runQuery], by simp [getHealth, runQuery]⟩
  · intro hn hr
    have ht : truthy (some e) = true := truthy_eq_true (emailRegexTest_ne_empty hr)
    exact ⟨by simp [postUser, hn, ht, hr, runQuery],
           by simp [postUser, hn, ht, hr, runQuery]⟩
  · intro hc
    have hcond : (!(truthy nombre) && !(truthy email)) = false := by
      cases hn : truthy nombre <;> cases hm : truthy email <;> simp_all
    exact ⟨by simp [putUser, hcond, runQuery],
           by simp [putUser, hcond, runQuery]⟩
  · by_cases he : env = "development" <;> simp [errorHandler, he]

/-- Claim C3 amended witness: a concrete connection failure exercising the
validated create and update conjuncts. -/
theorem store_message_unconditional_stack_gated_on_dev_case :
    ("error", JVal.s "connect ECONNREFUSED") ∈
      (getUsers ⟨false, "connect ECONNREFUSED"⟩ seedDB).resp.body ∧
    (postUser ⟨false, "connect ECONNREFUSED"⟩ seedDB (some "Ana")
        (some "ana@example.com") 5).resp.status = 500 ∧
    (putUser ⟨false, "connect ECONNREFUSED"⟩ seedDB 1 (some "Ana") none).resp.status = 500 := by
  have T := store_message_unconditional_stack_gated_on_dev seedDB 1
    "connect ECONNREFUSED" "production" "boom" "stacktrace" none (some "Ana") none
    "ana@example.com" 5 "15" "0d" "t0" "production" "t" "15" 0 0
  exact ⟨T.1.2,
         (T.2.2.2.2.2.2.2.1 (by decide) (by decide)).1,
         (T.2.2.2.2.2.2.2.2.1 (by decide)).1⟩

/-- Claim C4 counterexample: PUT /users/:id issues two statements (the
existence check and the update) on an existing id, and GET /stats issues
three; neither performs exactly one store operation. -/
theorem put_and_stats_issue_multiple_queries :
    (putUser ⟨true, ""⟩ seedDB 1 (some "Nuevo") none).queries = 2 ∧
    ¬ ((putUser ⟨true, ""⟩ seedDB 1 (some "Nuevo") none).queries ≤ 1) ∧
    (getStats ⟨true, ""⟩ seedDB "15.3" "0d 0h 0m 1s" "t0" "" 20).queries = 3 := by
  exact ⟨by decide, by decide, by decide⟩

/-- Claim C4 as amended: each handler issues a fixed bounded number of
statements with no retry: one for the list, single-row, delete, products,
health and db-test handlers, at most one for create, at most two for update
(the existence check and then the update itself), and exactly three for the
stats handler. -/
theorem handler_statement_counts (conn : Conn) (db : DB) (id : Nat)
    (nombre email : Option String) (now : Nat) (ver us st env nw vr : String)
    (m : Nat) :
    (getUsers conn db).queries = 1 ∧
    (getUserById conn db id).queries = 1 ∧
    (postUser conn db nombre email now).queries ≤ 1 ∧
    (putUser conn db id nombre email).queries ≤ 2 ∧
    (deleteUser conn db id).queries = 1 ∧
    (getProducts conn db).queries = 1 ∧
    (getStats conn db ver us st env m).queries = 3 ∧
    (getHealth conn db nw env m).queries = 1 ∧
    (getDbTest conn db nw vr).queries = 1 := by
  refine ⟨?_, ?_, ?_, ?_, ?_, ?_, ?_, ?_, ?_⟩ <;>
    · simp only [getUsers, getUserById, postUser, putUser, deleteUser, getProducts,
        getStats, getHealth, getDbTest, runQuery]
      repeat' split
      all_goals simp

/-- Claim C5 counterexample: a PUT whose body carries the syntactically
invalid email sin-arroba is not rejected with 400; the handler reaches the
store (two statements) and answers 500. -/
theorem put_with_invalid_email_not_rejected :
    emailRegexTest "sin-arroba" = false ∧
    (putUser ⟨true, ""⟩ seedDB 1 none (some "sin-arroba")).resp.status = 500 ∧
    (putUser ⟨true, ""⟩ seedDB 1 none (some "sin-arroba")).resp.status ≠ 400 ∧
    (putUser ⟨true, ""⟩ seedDB 1 none (some "sin-arroba")).queries = 2 := by
  exact ⟨by decide, by decide, by decide, by decide⟩

/-- Claim C5 as amended: only POST /users validates the email format: a
present but invalid email makes POST answer 400 with no store statement and
an unchanged store, while PUT /users/:id applies no format check, never
answers 400 for such a body, and passes the email through to its update
statement. -/
theorem email_format_validated_only_on_post :
    (∀ (conn : Conn) (db : DB) (nombre : Option String) (e : String) (now : Nat),
      emailRegexTest e = false →
      (postUser conn db nombre (some e) now).resp.status = 400 ∧
      (postUser conn db nombre (some e) now).db = db ∧
      (postUser conn db nombre (some e) now).queries = 0) ∧
    (∀ (conn : Conn) (db : DB) (id : Nat) (nombre : Option String) (e : String),
      e ≠ "" → emailRegexTest e = false →
      (putUser conn db id nombre (some e)).resp.status ≠ 400 ∧
      "email" ∈ putSetColumns nombre (some e)) := by
  constructor
  · intro conn db nombre e now h
    unfold postUser
    split
    · exact ⟨rfl, rfl, rfl⟩
    · simp only [Option.getD_some, h]
      exact ⟨rfl, rfl, rfl⟩
  · intro conn db id nombre e he hr
    have ht : truthy (some e) = true := truthy_eq_true he
    constructor
    · simp only [putUser, runQuery]
      repeat' split
      all_goals simp_all [ht]
    · cases hn : truthy nombre <;> simp [putSetColumns, hn, ht]

/-- Claim C5 amended witness at a concrete invalid email, with and without a
name field beside it. -/
theorem email_format_validated_only_on_post_case :
    emailRegexTest "sin-arroba" = false ∧
    (postUser ⟨true, ""⟩ seedDB (some "Ana") (some "sin-arroba") 5).resp.status = 400 ∧
    (putUser ⟨true, ""⟩ seedDB 1 (some "Nombre") (some "sin-arroba")).resp.status ≠ 400 ∧
    (putUser ⟨true, ""⟩ seedDB 1 none (some "sin-arroba")).resp.status ≠ 400 :=
  ⟨by decide,
   (email_format_validated_only_on_post.1 ⟨true, ""⟩ seedDB (some "Ana") "sin-arroba" 5
      (by decide)).1,
   (email_format_validated_only_on_post.2 ⟨true, ""⟩ seedDB 1 (some "Nombre") "sin-arroba"
      (by decide) (by decide)).1,
   (email_format_validated_only_on_post.2 ⟨true, ""⟩ seedDB 1 none "sin-arroba"
      (by decide) (by decide)).1⟩

/-- Claim C6 counterexample: the GET /data response is a 200 whose body has
the keys message, items, total and generatedAt but no success indicator
field. -/
theorem data_response_has_no_success_field :
    hasSuccessField (getData "2024-01-01T00:00:00.000Z") = false ∧
    (getData "2024-01-01T00:00:00.000Z").status = 200 := by
  exact ⟨by decide, by decide⟩

/-- Claim C6 as amended: every response is a structured payload, and the
responses of the user and product routes, stats, db-test, system-info, the
404 fallback and the terminal error handler carry a success indicator field,
but the health, info, data and echo responses carry none. -/
theorem success_field_coverage (conn : Conn) (db : DB) (id : Nat)
    (nombre email : Option String) (now : Nat) (ver us st env nw vr ndv host
    emsg estk : String) (m up : Nat) (estat : Option Nat) (reqBody : JVal) :
    hasSuccessField (getUsers conn db).resp = true ∧
    hasSuccessField (getUserById conn db id).resp = true ∧
    hasSuccessField (postUser conn db nombre email now).resp = true ∧
    hasSuccessField (putUser conn db id nombre email).resp = true ∧
    hasSuccessField (deleteUser conn db id).resp = true ∧
    hasSuccessField (getProducts conn db).resp = true ∧
    hasSuccessField (getStats conn db ver us st env m).resp = true ∧
    hasSuccessField (getDbTest conn db nw vr).resp = true ∧
    hasSuccessField (getSystemInfo st us ndv env host) = true ∧
    hasSuccessField notFoundHandler = true ∧
    hasSuccessField (errorHandler env estat emsg estk) = true ∧
    hasSuccessField (getHealth conn db nw env up).resp = false ∧
    hasSuccessField getInfo = false ∧
    hasSuccessField (getData nw) = false ∧
    hasSuccessField (postEcho reqBody nw) = false := by
  refine ⟨?_, ?_, ?_, ?_, ?_, ?_, ?_, ?_, ?_, ?_, ?_, ?_, ?_, ?_, ?_⟩ <;>
    · simp only [getUsers, getUserById, postUser, putUser, deleteUser, getProducts,
        getStats, getHealth, getDbTest, getSystemInfo, notFoundHandler, errorHandler,
        getInfo, getData, postEcho, runQuery, hasSuccessField]
      repeat' split
      all_goals simp

/-- Claim C10: the PUT /users/:id handler tests field presence by JS
truthiness, so a body whose nombre and email are both the empty string is
answered 400 exactly as if neither field were supplied, and an empty nombre
sent alongside any email behaves identically to a body without nombre: the
empty nombre is silently dropped and in particular never appears in the SET
clause of the update. -/
theorem put_truthiness_empty_string_fields (conn : Conn) (db : DB) (id : Nat)
    (e : String) :
    (putUser conn db id (some "") (some "")).resp.status = 400 ∧
    putUser conn db id (some "") (some "") = putUser conn db id none none ∧
    putUser conn db id (some "") (some e) = putUser conn db id none (some e) ∧
    "nombre" ∉ putSetColumns (some "") (some e) := by
  have h1 : truthy (some "") = false := by decide
  refine ⟨?_, ?_, ?_, ?_⟩
  · simp [putUser, h1, truthy]
  · simp [putUser, h1, truthy]
  · simp only [putUser, h1, show truthy (none : Option String) = false from rfl,
      execUpdate_empty_nombre]
  · cases he : truthy (some e) <;> simp [putSetColumns, h1, he]

/-- Claim C2: when a POST /users with a valid fresh email succeeds (201), a
second POST with the same email is answered 409, the store is left exactly
as after the first request, and exactly one stored user carries that email. -/
theorem duplicate_email_second_post_conflict (conn : Conn) (db : DB)
    (nombre nombre2 : Option String) (email : String) (now now2 : Nat)
    (h1 : conn.ok = true) (h2 : truthy nombre = true) (h3 : truthy nombre2 = true)
    (h4 : emailRegexTest email = true)
    (h5 : ∀ u ∈ db.users, u.email ≠ email) :
    (postUser conn db nombre (some email) now).resp.status = 201 ∧
    (postUser conn (postUser conn db nombre (some email) now).db nombre2
        (some email) now2).resp.status = 409 ∧
    (postUser conn (postUser conn db nombre (some email) now).db nombre2
        (some email) now2).db = (postUser conn db nombre (some email) now).db ∧
    ((postUser conn db nombre (some email) now).db.users.filter
        (fun u => u.email == email)).length = 1 := by
  have he : email ≠ "" := emailRegexTest_ne_empty h4
  have ht : truthy (some email) = true := truthy_eq_true he
  have hdup : (db.users.any fun u => u.email == email) = false := any_email_eq_false h5
  have hpost : postUser conn db nombre (some email) now =
      ⟨⟨201, [("success", JVal.b true), ("message", JVal.s "Usuario creado exitosamente"),
              ("user", JVal.u ⟨db.nextUserId, nombre.getD "", email, now⟩)]⟩,
       { db with users := db.users ++ [⟨db.nextUserId, nombre.getD "", email, now⟩],
                 nextUserId := db.nextUserId + 1 }, 1⟩ := by
    simp [postUser, h2, ht, h4, runQuery, h1, insertUsuario, hdup]
  have hdup2 : ((db.users ++ [(⟨db.nextUserId, nombre.getD "", email, now⟩ : User)]).any
      fun u => u.email == email) = true := by
    simp [List.any_append]
  have hpost2 : postUser conn
      ({ db with users := db.users ++ [(⟨db.nextUserId, nombre.getD "", email, now⟩ : User)],
                 nextUserId := db.nextUserId + 1 } : DB) nombre2 (some email) now2 =
      ⟨⟨409, [("success", JVal.b false),
              ("error", JVal.s ("El email \x27" ++ email ++ "\x27 ya esta registrado"))]⟩,
       { db with users := db.users ++ [(⟨db.nextUserId, nombre.getD "", email, now⟩ : User)],
                 nextUserId := db.nextUserId + 1 }, 1⟩ := by
    simp [postUser, h3, ht, h4, runQuery, h1, insertUsuario, hdup2]
  have hf : db.users.filter (fun u => u.email == email) = [] := by
    rw [List.filter_eq_nil_iff]
    intro u hu
    simp [h5 u hu]
  rw [hpost]
  refine ⟨rfl, ?_, ?_, ?_⟩
  · rw [hpost2]
  · rw [hpost2]
  · simp [List.filter_append, hf]

/-- Claim C2 witness: the seeded store with a concrete fresh email. -/
theorem duplicate_email_second_post_conflict_case :
    (postUser ⟨true, ""⟩ seedDB (some "Ana") (some "ana@example.com") 50).resp.status = 201 ∧
    (postUser ⟨true, ""⟩ (postUser ⟨true, ""⟩ seedDB (some "Ana") (some "ana@example.com") 50).db
        (some "Otro") (some "ana@example.com") 60).resp.status = 409 ∧
    (postUser ⟨true, ""⟩ (postUser ⟨true, ""⟩ seedDB (some "Ana") (some "ana@example.com") 50).db
        (some "Otro") (some "ana@example.com") 60).db =
      (postUser ⟨true, ""⟩ seedDB (some "Ana") (some "ana@example.com") 50).db ∧
    ((postUser ⟨true, ""⟩ seedDB (some "Ana") (some "ana@example.com") 50).db.users.filter
        (fun u => u.email == "ana@example.com")).length = 1 :=
  duplicate_email_second_post_conflict ⟨true, ""⟩ seedDB (some "Ana") (some "Otro")
    "ana@example.com" 50 60 rfl (by decide) (by decide) (by decide) (by decide)

/-- Claim C7: with the store reachable, an id that matches no stored user
makes GET, PUT (with a nonempty update body) and DELETE on /users/:id answer
404 (so in particular not 500); and deleting an existing id answers 200
carrying the deleted record, after which a second DELETE of the same id
answers 404. -/
theorem missing_id_yields_not_found :
    (∀ (conn : Conn) (db : DB) (id : Nat) (nombre email : Option String),
      conn.ok = true →
      db.users.filter (fun u => u.id == id) = [] →
      (truthy nombre || truthy email) = true →
      (getUserById conn db id).resp.status = 404 ∧
      (putUser conn db id nombre email).resp.status = 404 ∧
      (deleteUser conn db id).resp.status = 404) ∧
    (∀ (conn : Conn) (db : DB) (u : User),
      conn.ok = true →
      db.users.filter (fun v => v.id == u.id) = [u] →
      (deleteUser conn db u.id).resp.status = 200 ∧
      ("deleted_user", JVal.u u) ∈ (deleteUser conn db u.id).resp.body ∧
      (deleteUser conn (deleteUser conn db u.id).db u.id).resp.status = 404) := by
  constructor
  · intro conn db id nombre email h1 h2 h3
    refine ⟨?_, ?_, ?_⟩
    · simp [getUserById, runQuery, h1, selectUsuarioById, h2]
    · have hcond : (!(truthy nombre) && !(truthy email)) = false := by
        cases hn : truthy nombre <;> cases hm : truthy email <;> simp_all
      simp [putUser, hcond, runQuery, h1, selectUsuarioById, h2]
    · simp [deleteUser, runQuery, h1, deleteUsuario, h2]
  · intro conn db u h1 h2
    have hdel : deleteUser conn db u.id =
        ⟨⟨200, [("success", JVal.b true),
                ("message", JVal.s "Usuario eliminado exitosamente"),
                ("deleted_user", JVal.u u)]⟩,
         { db with users := db.users.filter (fun v => v.id != u.id) }, 1⟩ := by
      simp [deleteUser, runQuery, h1, deleteUsuario, h2]
    have hf2 : (db.users.filter (fun v => v.id != u.id)).filter
        (fun v => v.id == u.id) = [] := by
      rw [List.filter_eq_nil_iff]
      intro v hv
      have h3 := (List.mem_filter.mp hv).2
      rw [bne_iff_ne] at h3
      simp [h3]
    refine ⟨by rw [hdel], by rw [hdel]; simp, ?_⟩
    rw [hdel]
    simp [deleteUser, runQuery, h1, deleteUsuario, hf2]

/-- Claim C7 witness: the seeded store, the absent id 99 and the seeded user
with id 2. -/
theorem missing_id_yields_not_found_case :
    (getUserById ⟨true, ""⟩ seedDB 99).resp.status = 404 ∧
    (putUser ⟨true, ""⟩ seedDB 99 (some "X") none).resp.status = 404 ∧
    (deleteUser ⟨true, ""⟩ seedDB 2).resp.status = 200 ∧
    (deleteUser ⟨true, ""⟩ (deleteUser ⟨true, ""⟩ seedDB 2).db 2).resp.status = 404 :=
  ⟨(missing_id_yields_not_found.1 ⟨true, ""⟩ seedDB 99 (some "X") none rfl
      (by decide) (by decide)).1,
   (missing_id_yields_not_found.1 ⟨true, ""⟩ seedDB 99 (some "X") none rfl
      (by decide) (by decide)).2.1,
   (missing_id_yields_not_found.2 ⟨true, ""⟩ seedDB ⟨2, "Maria Garcia", "maria@example.com", 11⟩
      rfl (by decide)).1,
   (missing_id_yields_not_found.2 ⟨true, ""⟩ seedDB ⟨2, "Maria Garcia", "maria@example.com", 11⟩
      rfl (by decide)).2.2⟩

/-- Claim C8: with the store reachable, a POST /users carrying a nonempty
name and a fresh valid email is answered 201 with the created user (the next
SERIAL id, the given name and email, and the insert-time timestamp), and a
GET /users/:id on that id then returns the very same record. -/
theorem post_then_get_roundtrip (conn : Conn) (db : DB) (nombre email : String)
    (now : Nat) (h1 : conn.ok = true) (hn : nombre ≠ "")
    (hr : emailRegexTest email = true)
    (hfresh : ∀ u ∈ db.users, u.email ≠ email)
    (hid : ∀ u ∈ db.users, u.id ≠ db.nextUserId) :
    (postUser conn db (some nombre) (some email) now).resp =
      ⟨201, [("success", JVal.b true), ("message", JVal.s "Usuario creado exitosamente"),
             ("user", JVal.u ⟨db.nextUserId, nombre, email, now⟩)]⟩ ∧
    (getUserById conn (postUser conn db (some nombre) (some email) now).db
        db.nextUserId).resp =
      ⟨200, [("success", JVal.b true),
             ("user", JVal.u ⟨db.nextUserId, nombre, email, now⟩)]⟩ := by
  have he : email ≠ "" := emailRegexTest_ne_empty hr
  have htn : truthy (some nombre) = true := truthy_eq_true hn
  have hte : truthy (some email) = true := truthy_eq_true he
  have hdup : (db.users.any fun u => u.email == email) = false := any_email_eq_false hfresh
  have hpost : postUser conn db (some nombre) (some email) now =
      ⟨⟨201, [("success", JVal.b true), ("message", JVal.s "Usuario creado exitosamente"),
              ("user", JVal.u ⟨db.nextUserId, nombre, email, now⟩)]⟩,
       { db with users := db.users ++ [⟨db.nextUserId, nombre, email, now⟩],
                 nextUserId := db.nextUserId + 1 }, 1⟩ := by
    simp [postUser, htn, hte, hr, runQuery, h1, insertUsuario, hdup]
  refine ⟨by rw [hpost], ?_⟩
  rw [hpost]
  have hfilter : (db.users ++ [(⟨db.nextUserId, nombre, email, now⟩ : User)]).filter
      (fun u => u.id == db.nextUserId) = [⟨db.nextUserId, nombre, email, now⟩] := by
    rw [List.filter_append]
    have h0 : db.users.filter (fun u => u.id == db.nextUserId) = [] := by
      rw [List.filter_eq_nil_iff]
      intro u hu
      simp [hid u hu]
    rw [h0]
    simp
  simp [getUserById, runQuery, h1, selectUsuarioById, hfilter]

/-- Claim C8 witness: creating Ana on the seeded store and reading id 3 back. -/
theorem post_then_get_roundtrip_case :
    (postUser ⟨true, ""⟩ seedDB (some "Ana") (some "ana@example.com") 50).resp =
      ⟨201, [("success", JVal.b true), ("message", JVal.s "Usuario creado exitosamente"),
             ("user", JVal.u ⟨3, "Ana", "ana@example.com", 50⟩)]⟩ ∧
    (getUserById ⟨true, ""⟩
        (postUser ⟨true, ""⟩ seedDB (some "Ana") (some "ana@example.com") 50).db 3).resp =
      ⟨200, [("success", JVal.b true), ("user", JVal.u ⟨3, "Ana", "ana@example.com", 50⟩)]⟩ :=
  post_then_get_roundtrip ⟨true, ""⟩ seedDB "Ana" "ana@example.com" 50 rfl
    (by decide) (by decide) (by decide) (by decide)

lemma checkLoop_attempts_le (avail : Nat → Bool) (delay : Nat) :
    ∀ r i, (checkLoop avail delay i r).2.1 ≤ r := by
  intro r
  induction r with
  | zero => intro i; simp [checkLoop]
  | succ n ih =>
    intro i
    by_cases h : avail i
    · simp [checkLoop, h]
    · by_cases h0 : n = 0
      · simp [checkLoop, h, h0]
      · have hrec := ih (i + 1)
        simp [checkLoop, h, h0]
        omega

lemma checkLoop_all_fail (avail : Nat → Bool) (delay : Nat) :
    ∀ r i, (∀ j, j < r → avail (i + j) = false) → 1 ≤ r →
      checkLoop avail delay i r = (false, r, (r - 1) * delay) := by
  intro r
  induction r with
  | zero => intro i _ hr; omega
  | succ n ih =>
    intro i h _
    have hi : avail i = false := by simpa using h 0 (by omega)
    by_cases h0 : n = 0
    · subst h0
      simp [checkLoop, hi]
    · have hrec := ih (i + 1) (fun j hj => by
        have hx := h (j + 1) (by omega)
        rw [show (i + 1) + j = i + (j + 1) from by omega]
        exact hx) (by omega)
      simp [checkLoop, hi, h0, hrec]
      obtain ⟨m, rfl⟩ : ∃ m, n = m + 1 := ⟨n - 1, by omega⟩
      simp [Nat.succ_mul]

/-- Claim C9: the startup connection check makes at most five attempts; when
the store is unreachable at every attempt it makes exactly five, waits 2000
milliseconds after each failure but the last (8000 in total) and reports
failure, yet startServer still starts listening; the degraded state is then
visible through the health endpoint, which answers 500 with status
unhealthy whenever the store is unreachable. -/
theorem startup_retry_bounded_then_serves_degraded (avail : Nat → Bool) :
    (checkDatabaseConnection avail 5 2000).2.1 ≤ 5 ∧
    ((∀ i, i < 5 → avail i = false) →
      checkDatabaseConnection avail 5 2000 = (false, 5, 8000)) ∧
    (startServer avail).listening = true ∧
    (∀ (msg nw env : String) (db : DB) (up : Nat),
      (getHealth ⟨false, msg⟩ db nw env up).resp.status = 500 ∧
      ("status", JVal.s "unhealthy") ∈ (getHealth ⟨false, msg⟩ db nw env up).resp.body) := by
  refine ⟨checkLoop_attempts_le avail 2000 5 0, ?_, rfl, ?_⟩
  · intro h
    have hx := checkLoop_all_fail avail 2000 5 0
      (fun j hj => by simpa using h j (by omega)) (by omega)
    rw [checkDatabaseConnection, hx]
  · intro msg nw env db up
    exact ⟨by simp [getHealth, runQuery], by simp [getHealth, runQuery]⟩

/-- Claim C9 witness: a store that never answers. -/
theorem startup_retry_bounded_then_serves_degraded_case :
    checkDatabaseConnection (fun _ => false) 5 2000 = (false, 5, 8000) ∧
    (startServer (fun _ => false)).listening = true ∧
    (getHealth ⟨false, "connect ECONNREFUSED"⟩ seedDB "t" "" 0).resp.status = 500 :=
  ⟨(startup_retry_bounded_then_serves_degraded (fun _ => false)).2.1 (fun _ _ => rfl),
   (startup_retry_bounded_then_serves_degraded (fun _ => false)).2.2.1,
   ((startup_retry_bounded_then_serves_degraded (fun _ => false)).2.2.2
      "connect ECONNREFUSED" "t" "" seedDB 0).1⟩

end Api
